import Mathlib

/-!
# Verification of the `RealtimeVision` session lifecycle manager

Shallow embedding of `src/client/RealtimeVision.ts` (the session lifecycle
manager of the overshoot-js-sdk): configuration validation, the start
sequence, the keepalive (lease renewal) timer, the WebSocket result channel
handlers, `stop`/`cleanup`, and `submitFeedback`.

JavaScript numbers are modelled as `JsNum`: either `NaN` or an ordinary
(rational) number; the IEEE comparisons `<` and `>` are false whenever either
operand is `NaN`. Fallible operations return `Except SdkError`. External
effects (network calls, resource releases) are recorded in explicit traces.
-/

/-- A JavaScript number: `NaN` or an ordinary numeric value (modelled as a
rational; the constants and comparisons appearing in the validator are exact). -/
inductive JsNum where
  | nan : JsNum
  | num : ℚ → JsNum
deriving DecidableEq, Repr

namespace JsNum

/-- JavaScript `<`: false whenever either operand is `NaN`. -/
def jlt : JsNum → JsNum → Bool
  | num a, num b => a < b
  | _, _ => false

/-- JavaScript `>`: false whenever either operand is `NaN`. -/
def jgt : JsNum → JsNum → Bool
  | num a, num b => a > b
  | _, _ => false

end JsNum

/-- Errors thrown by the SDK. `validationError` is the `ValidationError`
subclass of `Error` in `RealtimeVision.ts`; `genericError` is a plain
`new Error(message)`. -/
inductive SdkError where
  | validationError : String → SdkError
  | genericError : String → SdkError
deriving DecidableEq, Repr

/-- `StreamSource` from `types.ts`, extended with the `png-stream` variant
exercised by the test suite. `camera` carries the raw `cameraFacing` string
(the validator checks it against `"user"`/`"environment"`); `video` carries
whether `file instanceof File` holds; `pngStream` carries the optional
width/height/targetFps. -/
inductive StreamSource where
  | camera : String → StreamSource
  | video : Bool → StreamSource
  | pngStream : Option JsNum → Option JsNum → Option JsNum → StreamSource
deriving DecidableEq, Repr

/-- The optional `processing` block of `RealtimeVisionConfig`. -/
structure ProcessingConfig where
  sampling_ratio : Option JsNum := none
  fps : Option JsNum := none
  clip_length_seconds : Option JsNum := none
  delay_seconds : Option JsNum := none
deriving DecidableEq, Repr

/-- The parts of `RealtimeVisionConfig` the validator and lifecycle inspect. -/
structure RealtimeVisionConfig where
  apiUrl : String
  apiKey : String
  prompt : String
  source : Option StreamSource := none
  processing : Option ProcessingConfig := none
deriving DecidableEq, Repr

namespace RealtimeVision

/-- The `CONSTRAINTS` table from `RealtimeVision.ts`. -/
def CONSTRAINTS_SAMPLING_RATIO_min : ℚ := 0
def CONSTRAINTS_SAMPLING_RATIO_max : ℚ := 1
def CONSTRAINTS_FPS_min : ℚ := 1
def CONSTRAINTS_FPS_max : ℚ := 120
def CONSTRAINTS_CLIP_LENGTH_SECONDS_min : ℚ := 1/10
def CONSTRAINTS_CLIP_LENGTH_SECONDS_max : ℚ := 60
def CONSTRAINTS_DELAY_SECONDS_min : ℚ := 0
def CONSTRAINTS_DELAY_SECONDS_max : ℚ := 60
def CONSTRAINTS_RATING_min : ℚ := 1
def CONSTRAINTS_RATING_max : ℚ := 5

/-- The source-descriptor checks of `validateConfig` (lines 206–223 of
`RealtimeVision.ts`): camera facing must be `"user"` or `"environment"`,
a video source must carry a `File`, and any other tag is rejected. -/
def validateSource : Option StreamSource → Except SdkError Unit
  | none => .ok ()
  | some (.camera facing) =>
      if facing ≠ "user" ∧ facing ≠ "environment" then
        .error (.validationError "cameraFacing must be \"user\" or \"environment\"")
      else .ok ()
  | some (.video isFile) =>
      if ¬isFile then
        .error (.validationError "video source must provide a File object")
      else .ok ()
  | some (.pngStream _ _ _) =>
      .error (.validationError "source.type must be \"camera\" or \"video\"")

/-- One numeric range check of `validateConfig`: fires only when the field is
present, and rejects exactly when `value < min || value > max` under JavaScript
comparison semantics (both comparisons are false for `NaN`). -/
def checkRange (field : Option JsNum) (lo hi : ℚ) (msg : String) :
    Except SdkError Unit :=
  match field with
  | none => .ok ()
  | some v =>
      if v.jlt (.num lo) ∨ v.jgt (.num hi) then
        .error (.validationError msg)
      else .ok ()

/-- The four numeric `processing` checks of `validateConfig` (lines 225–268),
in source order: the first failing range check determines the error. -/
def validateProcessing (p : ProcessingConfig) : Except SdkError Unit :=
  match checkRange p.sampling_ratio CONSTRAINTS_SAMPLING_RATIO_min
      CONSTRAINTS_SAMPLING_RATIO_max "sampling_ratio must be between 0 and 1" with
  | .error e => .error e
  | .ok () =>
  match checkRange p.fps CONSTRAINTS_FPS_min CONSTRAINTS_FPS_max
      "fps must be between 1 and 120" with
  | .error e => .error e
  | .ok () =>
  match checkRange p.clip_length_seconds CONSTRAINTS_CLIP_LENGTH_SECONDS_min
      CONSTRAINTS_CLIP_LENGTH_SECONDS_max
      "clip_length_seconds must be between 0.1 and 60" with
  | .error e => .error e
  | .ok () =>
      checkRange p.delay_seconds CONSTRAINTS_DELAY_SECONDS_min
        CONSTRAINTS_DELAY_SECONDS_max "delay_seconds must be between 0 and 60"

/-- `RealtimeVision.validateConfig` (lines 193–269): required strings, source
descriptor, then the four numeric processing ranges in source order. -/
def validateConfig (config : RealtimeVisionConfig) : Except SdkError Unit :=
  if config.apiUrl = "" then
    .error (.validationError "apiUrl is required and must be a string")
  else if config.apiKey = "" then
    .error (.validationError "apiKey is required and must be a string")
  else if config.prompt = "" then
    .error (.validationError "prompt is required and must be a string")
  else match validateSource config.source with
    | .error e => .error e
    | .ok () => validateProcessing (config.processing.getD {})

/-- One decoded inference result (`StreamInferenceResult` from `types.ts`). -/
structure StreamInferenceResult where
  id : String
  stream_id : String
  model_backend : String
  model_name : String
  prompt : String
  result : String
  inference_latency_ms : JsNum
  total_latency_ms : JsNum
  ok : Bool
  error : Option String
deriving DecidableEq, Repr

/-- The resource handles and running flag of a `RealtimeVision` instance
(fields declared at lines 171–178). Handles are opaque ids; the armed
keepalive timer carries its interval in milliseconds. -/
structure ManagerState where
  mediaStream : Option ℕ := none
  peerConnection : Option ℕ := none
  webSocket : Option ℕ := none
  streamId : Option String := none
  keepaliveInterval : Option ℚ := none
  videoElement : Option ℕ := none
  isRunning : Bool := false
deriving DecidableEq, Repr

/-- The state of a freshly constructed instance: every handle null, not
running. -/
def initialState : ManagerState := {}

/-- Every handle of the instance is null, the stream id included. -/
def allHandlesNull (s : ManagerState) : Prop :=
  s.mediaStream = none ∧ s.peerConnection = none ∧ s.webSocket = none ∧
    s.streamId = none ∧ s.keepaliveInterval = none ∧ s.videoElement = none

instance : DecidablePred allHandlesNull := by
  unfold allHandlesNull; infer_instance

/-- The constructor (lines 180–188): validate the configuration, then return
a fresh instance with all handles null. On a validation failure no instance
exists at all. -/
def mk (config : RealtimeVisionConfig) : Except SdkError ManagerState :=
  match validateConfig config with
  | .error e => .error e
  | .ok () => .ok initialState

/-- The externally observable release operations performed by `cleanup`, in
the vocabulary of the source (lines 705–737). -/
inductive CleanupAction where
  | clearKeepalive
  | closeWebSocket
  | closePeerConnection
  | stopMediaTracks
  | releaseVideoElement
deriving DecidableEq, Repr

/-- `RealtimeVision.cleanup` (lines 705–737): each guarded block performs its
release action and nulls its handle, in source order (keepalive timer, web
socket, peer connection, media tracks, video element); finally `streamId` is
nulled. Returns the new state and the trace of release actions. -/
def cleanup (s : ManagerState) : ManagerState × List CleanupAction :=
  let (s1, a1) :=
    match s.keepaliveInterval with
    | some _ => ({ s with keepaliveInterval := none }, [CleanupAction.clearKeepalive])
    | none => (s, [])
  let (s2, a2) :=
    match s1.webSocket with
    | some _ => ({ s1 with webSocket := none }, [CleanupAction.closeWebSocket])
    | none => (s1, [])
  let (s3, a3) :=
    match s2.peerConnection with
    | some _ => ({ s2 with peerConnection := none }, [CleanupAction.closePeerConnection])
    | none => (s2, [])
  let (s4, a4) :=
    match s3.mediaStream with
    | some _ => ({ s3 with mediaStream := none }, [CleanupAction.stopMediaTracks])
    | none => (s3, [])
  let (s5, a5) :=
    match s4.videoElement with
    | some _ => ({ s4 with videoElement := none }, [CleanupAction.releaseVideoElement])
    | none => (s4, [])
  ({ s5 with streamId := none }, a1 ++ a2 ++ a3 ++ a4 ++ a5)

/-- `RealtimeVision.stop` (lines 644–648): run `cleanup`, then clear
`isRunning`. Total — it cannot throw. -/
def stop (s : ManagerState) : ManagerState × List CleanupAction :=
  ({ (cleanup s).1 with isRunning := false }, (cleanup s).2)

/-- `RealtimeVision.handleFatalError` (lines 611–622): run `cleanup`, clear
`isRunning`, and report the error through `onError`. Returns the new state,
the release actions, and the reported error. -/
def handleFatalError (s : ManagerState) (e : SdkError) :
    ManagerState × List CleanupAction × SdkError :=
  ({ (cleanup s).1 with isRunning := false }, (cleanup s).2, e)

/-- `RealtimeVision.setupKeepalive` (lines 523–545): `if (!ttlSeconds) return;`
skips arming for a missing ttl and for the falsy numbers `0` and `NaN`;
otherwise the timer is armed with interval `(ttlSeconds / 2) * 1000`
milliseconds. Returns the armed interval, if any. -/
def setupKeepalive (ttlSeconds : Option JsNum) : Option ℚ :=
  match ttlSeconds with
  | none => none
  | some .nan => none
  | some (.num t) => if t = 0 then none else some ((t / 2) * 1000)

/-- `window.setInterval` semantics: a timer armed with interval `i`
milliseconds fires at `i, 2·i, 3·i, …` milliseconds after arming. -/
def timerFiresAt (intervalMs : ℚ) (timeMs : ℚ) : Prop :=
  ∃ n : ℕ, timeMs = intervalMs * (n + 1)

/-- What the `onclose` handler does with a close event. `fatal msg` means
`handleFatalError(new Error(msg))` is invoked; `ignored` means the close is
only debug-logged. -/
inductive CloseOutcome where
  | fatal : String → CloseOutcome
  | ignored : CloseOutcome
deriving DecidableEq, Repr

/-- The WebSocket `onclose` handler (lines 579–595): while `isRunning`, close
code 1008 surfaces as the authentication failure and every other code as the
generic unexpected-close error, both through the fatal-error path; when not
running, the close is not reported. -/
def handleWebSocketClose (isRunning : Bool) (code : ℕ) : CloseOutcome :=
  if isRunning then
    if code = 1008 then
      .fatal "WebSocket authentication failed: Invalid or revoked API key"
    else
      .fatal "WebSocket closed unexpectedly"
  else
    .ignored

/-- `RealtimeVision.handleNonFatalError` (lines 601–606): report the error to
`onError` and leave the state untouched — no cleanup, no flag change. -/
def handleNonFatalError (s : ManagerState) (e : SdkError) :
    ManagerState × List SdkError :=
  (s, [e])

/-- The outcome of the `onmessage` handler on one inbound frame. -/
structure WsMessageOutcome where
  state : ManagerState
  results : List StreamInferenceResult
  errors : List SdkError
  releases : List CleanupAction
deriving Repr

/-- The WebSocket `onmessage` handler (lines 561–571): decode the frame as a
`StreamInferenceResult` and deliver it to `onResult`; on a decode failure,
wrap the decoder's message and route it through `handleNonFatalError`. The
decoder (`JSON.parse` plus the result typing) is an external parameter. -/
def handleWebSocketMessage (decode : String → Except String StreamInferenceResult)
    (data : String) (s : ManagerState) : WsMessageOutcome :=
  match decode data with
  | .ok r => ⟨s, [r], [], []⟩
  | .error msg =>
      let (s', errs) := handleNonFatalError s
        (.genericError ("Failed to parse WebSocket message: " ++ msg))
      ⟨s', [], errs, []⟩

/-- Network requests issued through the `StreamClient` wrapper. -/
inductive NetEffect where
  | createStream : String → NetEffect
  | renewLease : String → NetEffect
  | feedbackPost : String → JsNum → String → String → NetEffect
deriving DecidableEq, Repr

/-- `RealtimeVision.submitFeedback` (lines 653–682): fails with
"No active stream" whenever `streamId` is null; then validates the rating
range (JavaScript comparisons) and the category; on success issues the
feedback POST for the current stream id. -/
def submitFeedback (s : ManagerState) (rating : JsNum) (category : String)
    (feedback : Option String) : Except SdkError NetEffect :=
  match s.streamId with
  | none => .error (.genericError "No active stream")
  | some sid =>
      if rating.jlt (.num CONSTRAINTS_RATING_min) ∨
          rating.jgt (.num CONSTRAINTS_RATING_max) then
        .error (.validationError "rating must be between 1 and 5")
      else if category = "" then
        .error (.validationError "category must be a non-empty string")
      else
        .ok (.feedbackPost sid rating category (feedback.getD ""))

/-- The environment a run of `start()` executes against: the result of media
acquisition, whether the local description is produced, and the server's
response to the create call (stream id and optional lease ttl). -/
structure StartEnv where
  media : Except SdkError ℕ
  offerOk : Bool
  createResp : Except SdkError (String × Option JsNum)
deriving Repr

/-- `RealtimeVision.start` (lines 415–518) run to completion against `env`,
sequentially (no interleaving): the `isRunning` guard, media acquisition,
peer-connection and local-offer setup, the `createStream` network call, then
storing the ids, arming the keepalive and opening the WebSocket before setting
`isRunning`. Note the body performs no configuration validation. Any failure
inside the `try` goes through `handleFatalError` and is rethrown. Returns the
result, the final state, and the network calls issued. -/
def runStart (config : RealtimeVisionConfig) (s : ManagerState) (env : StartEnv) :
    Except SdkError Unit × ManagerState × List NetEffect :=
  if s.isRunning then
    (.error (.genericError "Vision stream already running"), s, [])
  else
    match env.media with
    | .error e =>
        let (s', _, reported) := handleFatalError s e
        (.error reported, s', [])
    | .ok m =>
        let isVideo := match config.source with
          | some (.video _) => true
          | _ => false
        let s1 := { s with mediaStream := some m,
                           videoElement := if isVideo then some m else none }
        let s2 := { s1 with peerConnection := some m }
        if ¬env.offerOk then
          let (s', _, reported) :=
            handleFatalError s2 (.genericError "Failed to create local description")
          (.error reported, s', [])
        else
          let calls := [NetEffect.createStream config.prompt]
          match env.createResp with
          | .error e =>
              let (s', _, reported) := handleFatalError s2 e
              (.error reported, s', calls)
          | .ok (sid, ttl) =>
              let s3 := { s2 with streamId := some sid,
                                  keepaliveInterval := setupKeepalive ttl,
                                  webSocket := some m,
                                  isRunning := true }
              (.ok (), s3, calls)

/-- Program counter of one `start()` invocation in the event-loop model: each
value names the synchronous segment that runs next, the segments being
separated by the `await` suspension points of lines 415–518. -/
inductive TaskPC where
  | atGuard
  | atMedia
  | atCreate
  | atFinish
  | taskDone
  | taskFailed
deriving DecidableEq, Repr

/-- Two concurrent invocations of `start()` on the one shared instance:
the shared `ManagerState`, each task's program counter and thrown error, and
the network calls issued so far. -/
structure TwoStartSys where
  st : ManagerState
  pcA : TaskPC := .atGuard
  pcB : TaskPC := .atGuard
  thrownA : Option SdkError := none
  thrownB : Option SdkError := none
  net : List NetEffect := []
deriving DecidableEq, Repr

/-- The stream id the server grants to each task in the interleaving model. -/
def sidOf (w : Bool) : String := if w then "sid-B" else "sid-A"

/-- One event-loop turn of task `w` (false = A, true = B) running `start()`
against a server that grants a session with no lease: `atGuard` is the
synchronous prefix up to the `createMediaStream` await, including the
`isRunning` guard of line 416; `atMedia` resumes with the acquired stream and
runs to the `createStream` await (storing the media stream and setting up the
peer connection and local offer); `atCreate` performs the `createStream`
network call; `atFinish` is the synchronous tail storing the stream id,
opening the WebSocket and setting `isRunning := true`. -/
def stepStart (w : Bool) (sys : TwoStartSys) : TwoStartSys :=
  let pc := if w then sys.pcB else sys.pcA
  let setPc (sys : TwoStartSys) (p : TaskPC) : TwoStartSys :=
    if w then { sys with pcB := p } else { sys with pcA := p }
  let setThrown (sys : TwoStartSys) (e : SdkError) : TwoStartSys :=
    if w then { sys with thrownB := some e } else { sys with thrownA := some e }
  match pc with
  | .atGuard =>
      if sys.st.isRunning then
        setPc (setThrown sys (.genericError "Vision stream already running")) .taskFailed
      else
        setPc sys .atMedia
  | .atMedia =>
      let h := if w then 1 else 0
      setPc { sys with st := { sys.st with mediaStream := some h,
                                           peerConnection := some h } } .atCreate
  | .atCreate =>
      setPc { sys with net := sys.net ++ [NetEffect.createStream (sidOf w)] } .atFinish
  | .atFinish =>
      let h := if w then 1 else 0
      setPc { sys with st := { sys.st with streamId := some (sidOf w),
                                           webSocket := some h,
                                           isRunning := true } } .taskDone
  | .taskDone => sys
  | .taskFailed => sys

/-- Run the event loop under a schedule: at each turn the named task executes
its next synchronous segment. -/
def runSchedule (sched : List Bool) (sys : TwoStartSys) : TwoStartSys :=
  sched.foldl (fun acc w => stepStart w acc) sys

/-- Number of sessions created on the server during a run. -/
def sessionsCreated (effects : List NetEffect) : ℕ :=
  (effects.filter fun e => match e with
    | .createStream _ => true
    | _ => false).length

/-- Whether a source descriptor is the push-stream (png-stream) variant. -/
def isPngStream : StreamSource → Bool
  | .pngStream _ _ _ => true
  | _ => false

/-- Modelled from the spec: the `pushFrame` operation of the png-stream
source variant is not present under `src/` — only its tests are. Per §4.2 of
the spec, calling it before the session has started fails with a state error,
and calling it when the active source is not the push-stream variant fails
with a variant-mismatch error rather than silently no-opping; the messages
are those asserted by the test suite ("Stream is not running" and
"pushFrame() can only be used with png-stream source type"). On a running
png-stream session the frame is drawn onto the render surface. -/
def pushFrame (source : StreamSource) (isRunning : Bool) :
    Except SdkError Unit :=
  if ¬isRunning then
    .error (.genericError "Stream is not running")
  else if ¬isPngStream source then
    .error (.genericError "pushFrame() can only be used with png-stream source type")
  else
    .ok ()

/-- Whether a numeric processing field fails its range check: present and
`value < lo || value > hi` under JavaScript comparisons. -/
def violatedField (field : Option JsNum) (lo hi : ℚ) : Bool :=
  match field with
  | none => false
  | some v => v.jlt (.num lo) ∨ v.jgt (.num hi)

/-- The validation messages of the violated numeric processing fields, in
the order the validator checks them. -/
def violatedMsgs (p : ProcessingConfig) : List String :=
  (if violatedField p.sampling_ratio CONSTRAINTS_SAMPLING_RATIO_min
      CONSTRAINTS_SAMPLING_RATIO_max then
    ["sampling_ratio must be between 0 and 1"] else []) ++
  (if violatedField p.fps CONSTRAINTS_FPS_min CONSTRAINTS_FPS_max then
    ["fps must be between 1 and 120"] else []) ++
  (if violatedField p.clip_length_seconds CONSTRAINTS_CLIP_LENGTH_SECONDS_min
      CONSTRAINTS_CLIP_LENGTH_SECONDS_max then
    ["clip_length_seconds must be between 0.1 and 60"] else []) ++
  (if violatedField p.delay_seconds CONSTRAINTS_DELAY_SECONDS_min
      CONSTRAINTS_DELAY_SECONDS_max then
    ["delay_seconds must be between 0 and 60"] else [])

/-- The four numeric processing fields. -/
inductive NumField where
  | samplingRatio
  | fpsField
  | clipLength
  | delaySecs
deriving DecidableEq, Repr

/-- Replace one numeric processing field of a configuration with `NaN`
(creating the `processing` block if absent). -/
def setProcNaN (c : RealtimeVisionConfig) (f : NumField) : RealtimeVisionConfig :=
  let p := c.processing.getD {}
  let p' := match f with
    | .samplingRatio => { p with sampling_ratio := some .nan }
    | .fpsField => { p with fps := some .nan }
    | .clipLength => { p with clip_length_seconds := some .nan }
    | .delaySecs => { p with delay_seconds := some .nan }
  { c with processing := some p' }

/-- A well-formed configuration whose `sampling_ratio` is 1.5 — the spec's
scenario input. -/
def badRatioConfig : RealtimeVisionConfig :=
  { apiUrl := "https://api.example.com", apiKey := "key", prompt := "Read text",
    processing := some { sampling_ratio := some (.num (3/2)) } }

/-- A configuration passing every validator check. -/
def goodConfig : RealtimeVisionConfig :=
  { apiUrl := "https://api.example.com", apiKey := "key", prompt := "Read text" }

/-- An environment in which media acquisition, the offer and the server create
call all succeed, the server granting stream "sid-1" without a lease. -/
def okEnv : StartEnv :=
  { media := .ok 0, offerOk := true,
    createResp := .ok ("sid-1", none) }

/-- An active session state, as reached after a successful `start()`. -/
def wsDemoState : ManagerState :=
  { mediaStream := some 0, peerConnection := some 0, webSocket := some 0,
    streamId := some "sid-1", keepaliveInterval := some 150000,
    videoElement := none, isRunning := true }

/-- Helper: `cleanup` always leaves every handle (stream id included) null and
preserves only the `isRunning` flag. -/
theorem cleanup_fst (s : ManagerState) :
    (cleanup s).1 = { isRunning := s.isRunning } := by
  obtain ⟨ms, pc, ws, sid, ki, ve, run⟩ := s
  cases ms <;> cases pc <;> cases ws <;> cases ki <;> cases ve <;> rfl

/-- Helper: a range check fires exactly on a violated field. -/
theorem checkRange_eq (f : Option JsNum) (lo hi : ℚ) (msg : String) :
    checkRange f lo hi msg =
      if violatedField f lo hi then .error (.validationError msg) else .ok () := by
  cases f <;> simp [checkRange, violatedField]

/-- Helper: `validateProcessing` reports the message of the first violated
numeric field, and succeeds when no field is violated. -/
theorem validateProcessing_eq_head (p : ProcessingConfig) :
    validateProcessing p =
      ((violatedMsgs p).head?.elim (.ok ())
        fun m => .error (.validationError m)) := by
  unfold validateProcessing violatedMsgs
  rw [checkRange_eq, checkRange_eq, checkRange_eq, checkRange_eq]
  by_cases h1 : violatedField p.sampling_ratio CONSTRAINTS_SAMPLING_RATIO_min
      CONSTRAINTS_SAMPLING_RATIO_max <;>
    by_cases h2 : violatedField p.fps CONSTRAINTS_FPS_min CONSTRAINTS_FPS_max <;>
    by_cases h3 : violatedField p.clip_length_seconds
      CONSTRAINTS_CLIP_LENGTH_SECONDS_min CONSTRAINTS_CLIP_LENGTH_SECONDS_max <;>
    by_cases h4 : violatedField p.delay_seconds CONSTRAINTS_DELAY_SECONDS_min
      CONSTRAINTS_DELAY_SECONDS_max <;>
    simp [h1, h2, h3, h4]

/-- Helper: no numeric field is violated exactly when the violation list is
empty. -/
theorem violatedMsgs_nil_iff (p : ProcessingConfig) :
    violatedMsgs p = [] ↔
      (violatedField p.sampling_ratio CONSTRAINTS_SAMPLING_RATIO_min
        CONSTRAINTS_SAMPLING_RATIO_max = false ∧
      violatedField p.fps CONSTRAINTS_FPS_min CONSTRAINTS_FPS_max = false ∧
      violatedField p.clip_length_seconds CONSTRAINTS_CLIP_LENGTH_SECONDS_min
        CONSTRAINTS_CLIP_LENGTH_SECONDS_max = false ∧
      violatedField p.delay_seconds CONSTRAINTS_DELAY_SECONDS_min
        CONSTRAINTS_DELAY_SECONDS_max = false) := by
  unfold violatedMsgs
  by_cases h1 : violatedField p.sampling_ratio CONSTRAINTS_SAMPLING_RATIO_min
      CONSTRAINTS_SAMPLING_RATIO_max <;>
    by_cases h2 : violatedField p.fps CONSTRAINTS_FPS_min CONSTRAINTS_FPS_max <;>
    by_cases h3 : violatedField p.clip_length_seconds
      CONSTRAINTS_CLIP_LENGTH_SECONDS_min CONSTRAINTS_CLIP_LENGTH_SECONDS_max <;>
    by_cases h4 : violatedField p.delay_seconds CONSTRAINTS_DELAY_SECONDS_min
      CONSTRAINTS_DELAY_SECONDS_max <;>
    simp [h1, h2, h3, h4]

/-- Helper: `validateConfig` succeeds exactly when the required strings are
non-empty, the source descriptor is valid and no numeric processing field is
out of range. -/
theorem validateConfig_ok_iff (c : RealtimeVisionConfig) :
    validateConfig c = .ok () ↔
      (¬c.apiUrl = "" ∧ ¬c.apiKey = "" ∧ ¬c.prompt = "" ∧
        validateSource c.source = .ok () ∧
        violatedMsgs (c.processing.getD {}) = []) := by
  unfold validateConfig
  by_cases h1 : c.apiUrl = ""
  · simp [h1]
  by_cases h2 : c.apiKey = ""
  · simp [h1, h2]
  by_cases h3 : c.prompt = ""
  · simp [h1, h2, h3]
  rw [if_neg h1, if_neg h2, if_neg h3]
  cases hsrc : validateSource c.source with
  | error e => simp
  | ok u =>
    cases u
    simp only [h1, h2, h3, not_false_iff, true_and]
    rw [validateProcessing_eq_head]
    cases hl : violatedMsgs (c.processing.getD {}) <;> simp [hl, Option.elim]

/-- C3: `stop()` and the cleanup it runs are idempotent — from every state,
one `stop()` leaves every handle (media stream, peer connection, web socket,
keepalive timer, video element, stream id) null with the manager not active;
a second `stop()` changes nothing and performs no release actions; the same
holds for a `stop()` issued after a fatal error already ran cleanup. Both
operations are total functions, so neither can throw. -/
theorem stop_idempotent_and_total (s : ManagerState) (e : SdkError) :
    allHandlesNull (stop s).1 ∧ (stop s).1.isRunning = false ∧
    stop (stop s).1 = ((stop s).1, []) ∧
    allHandlesNull (handleFatalError s e).1 ∧
    (handleFatalError s e).1.isRunning = false ∧
    stop (handleFatalError s e).1 = ((handleFatalError s e).1, []) := by
  have h1 : (stop s).1 = { isRunning := false } := by
    simp [stop, cleanup_fst]
  have h2 : (handleFatalError s e).1 = { isRunning := false } := by
    simp [handleFatalError, cleanup_fst]
  rw [h1, h2]
  refine ⟨by decide, rfl, ?_, by decide, rfl, ?_⟩ <;> rfl

/-- C8: every invocation of `cleanup` releases resources in exactly the order
cancel keepalive timer → close web socket → close peer connection → stop media
tracks → release the video element, and performs exactly the steps whose
handle is non-null. -/
theorem cleanup_release_order (s : ManagerState) :
    (cleanup s).2.Sublist
      [CleanupAction.clearKeepalive, CleanupAction.closeWebSocket,
       CleanupAction.closePeerConnection, CleanupAction.stopMediaTracks,
       CleanupAction.releaseVideoElement] ∧
    (CleanupAction.clearKeepalive ∈ (cleanup s).2 ↔ s.keepaliveInterval.isSome) ∧
    (CleanupAction.closeWebSocket ∈ (cleanup s).2 ↔ s.webSocket.isSome) ∧
    (CleanupAction.closePeerConnection ∈ (cleanup s).2 ↔ s.peerConnection.isSome) ∧
    (CleanupAction.stopMediaTracks ∈ (cleanup s).2 ↔ s.mediaStream.isSome) ∧
    (CleanupAction.releaseVideoElement ∈ (cleanup s).2 ↔ s.videoElement.isSome) := by
  obtain ⟨ms, pc, ws, sid, ki, ve, run⟩ := s
  cases ms <;> cases pc <;> cases ws <;> cases ki <;> cases ve <;>
    refine ⟨?_, ?_, ?_, ?_, ?_, ?_⟩ <;> simp [cleanup] <;> decide

/-- C5: a granted lease with ttl `t > 0` seconds arms the renewal timer with
interval exactly `(t / 2) * 1000` milliseconds; the timer first fires at that
interval and never before it; with no lease granted, no timer is armed. -/
theorem keepalive_half_ttl (t : ℚ) (ht : 0 < t) :
    setupKeepalive (some (.num t)) = some ((t / 2) * 1000) ∧
    timerFiresAt ((t / 2) * 1000) ((t / 2) * 1000) ∧
    (∀ time, timerFiresAt ((t / 2) * 1000) time → (t / 2) * 1000 ≤ time) ∧
    setupKeepalive none = none := by
  refine ⟨by simp [setupKeepalive, ht.ne'], ⟨0, by ring⟩, ?_, rfl⟩
  rintro time ⟨n, rfl⟩
  have hi : (0 : ℚ) ≤ (t / 2) * 1000 := by positivity
  have hn : (1 : ℚ) ≤ (n : ℚ) + 1 := by
    have := Nat.cast_nonneg (α := ℚ) n
    linarith
  calc (t / 2) * 1000 = (t / 2) * 1000 * 1 := by ring
    _ ≤ (t / 2) * 1000 * ((n : ℚ) + 1) := by
        exact mul_le_mul_of_nonneg_left hn hi

/-- C5 witness: a 300-second lease arms the timer with interval 150000
milliseconds, i.e. the first renewal fires at 150 seconds. -/
theorem keepalive_half_ttl_witness :
    (0 : ℚ) < 300 ∧ setupKeepalive (some (.num 300)) = some 150000 := by
  have h := (keepalive_half_ttl 300 (by norm_num)).1
  norm_num at h
  exact ⟨by norm_num, h⟩

/-- C6: a result-channel close while running with the reserved
policy-violation code 1008 always surfaces through the fatal-error path as the
authentication failure and never as the generic unexpected-close error; any
other code while running surfaces as the generic error; a close after the
controller cleared the running flag is not reported. -/
theorem ws_close_classification (code : ℕ) :
    handleWebSocketClose true 1008 =
      .fatal "WebSocket authentication failed: Invalid or revoked API key" ∧
    handleWebSocketClose true 1008 ≠ .fatal "WebSocket closed unexpectedly" ∧
    (code ≠ 1008 →
      handleWebSocketClose true code = .fatal "WebSocket closed unexpectedly") ∧
    handleWebSocketClose false code = .ignored := by
  refine ⟨rfl, by decide, ?_, rfl⟩
  intro h
  simp [handleWebSocketClose, h]

/-- C6 witness: the classification at the concrete close code 1000. -/
theorem ws_close_classification_witness :
    handleWebSocketClose true 1000 = .fatal "WebSocket closed unexpectedly" ∧
    handleWebSocketClose false 1000 = .ignored :=
  ⟨(ws_close_classification 1000).2.2.1 (by decide),
   (ws_close_classification 1000).2.2.2⟩

/-- C7: an inbound channel message that fails to decode is non-fatal —
`onResult` is not invoked, `onError` receives the wrapped parse error, and the
session state is unchanged (still the same running state, channel open, no
release action runs). -/
theorem parse_failure_nonfatal
    (decode : String → Except String StreamInferenceResult)
    (data msg : String) (s : ManagerState) (h : decode data = .error msg) :
    (handleWebSocketMessage decode data s).results = [] ∧
    (handleWebSocketMessage decode data s).errors =
      [.genericError ("Failed to parse WebSocket message: " ++ msg)] ∧
    (handleWebSocketMessage decode data s).state = s ∧
    (handleWebSocketMessage decode data s).releases = [] := by
  simp [handleWebSocketMessage, h, handleNonFatalError]

/-- C7 witness: a decoder failing with "bad" on the frame "nonsense" received
in an active session. -/
theorem parse_failure_nonfatal_witness :
    (handleWebSocketMessage (fun _ => .error "bad") "nonsense" wsDemoState).results = [] ∧
    (handleWebSocketMessage (fun _ => .error "bad") "nonsense" wsDemoState).errors =
      [.genericError ("Failed to parse WebSocket message: " ++ "bad")] ∧
    (handleWebSocketMessage (fun _ => .error "bad") "nonsense" wsDemoState).state =
      wsDemoState ∧
    (handleWebSocketMessage (fun _ => .error "bad") "nonsense" wsDemoState).releases = [] :=
  parse_failure_nonfatal (fun _ => .error "bad") "nonsense" "bad" wsDemoState rfl

/-- C1 counterexample: under the alternating event-loop schedule, a second
`start()` invoked while the first is still in progress (state Starting) is
not rejected — neither invocation throws, both complete, and two sessions are
created on the server by the one manager instance. The guard of line 416 only
tests `isRunning`, which is set at line 513, after every suspension point. -/
theorem concurrent_start_two_sessions :
    (runSchedule [false, true, false, true, false, true, false, true]
      { st := initialState }).thrownA = none ∧
    (runSchedule [false, true, false, true, false, true, false, true]
      { st := initialState }).thrownB = none ∧
    (runSchedule [false, true, false, true, false, true, false, true]
      { st := initialState }).pcA = .taskDone ∧
    (runSchedule [false, true, false, true, false, true, false, true]
      { st := initialState }).pcB = .taskDone ∧
    sessionsCreated (runSchedule [false, true, false, true, false, true, false, true]
      { st := initialState }).net = 2 :=
  ⟨rfl, rfl, rfl, rfl, rfl⟩

/-- C1 (amended): `start()` is rejected with "Vision stream already running"
exactly when `isRunning` is true at the moment its guard runs — so a call
after a completed `start()` (Active) is rejected without issuing any network
call, while a call whose guard runs during an in-progress `start()` (before
`isRunning` is set) passes the guard. -/
theorem start_guard_rejects_only_active (sys : TwoStartSys)
    (cfg : RealtimeVisionConfig) (s : ManagerState) (env : StartEnv) :
    (sys.pcA = .atGuard → sys.st.isRunning = true →
      (stepStart false sys).thrownA =
        some (.genericError "Vision stream already running") ∧
      (stepStart false sys).net = sys.net) ∧
    (sys.pcA = .atGuard → sys.st.isRunning = false →
      (stepStart false sys).thrownA = sys.thrownA ∧
      (stepStart false sys).pcA = .atMedia) ∧
    (s.isRunning = true →
      runStart cfg s env =
        (.error (.genericError "Vision stream already running"), s, [])) := by
  refine ⟨?_, ?_, ?_⟩
  · intro h1 h2
    simp [stepStart, h1, h2]
  · intro h1 h2
    simp [stepStart, h1, h2]
  · intro h
    simp [runStart, h]

/-- C1 witness: the guard at concrete states — rejected when already Active,
passed from Idle, and a sequential second `start()` on an Active manager is
rejected. -/
theorem start_guard_rejects_only_active_witness :
    (stepStart false { st := { isRunning := true } }).thrownA =
      some (.genericError "Vision stream already running") ∧
    (stepStart false { st := initialState }).thrownA = none ∧
    runStart goodConfig { isRunning := true } okEnv =
      (.error (.genericError "Vision stream already running"),
        { isRunning := true }, []) :=
  ⟨((start_guard_rejects_only_active { st := { isRunning := true } } goodConfig
      { isRunning := true } okEnv).1 rfl rfl).1,
   ((start_guard_rejects_only_active { st := initialState } goodConfig
      { isRunning := true } okEnv).2.1 rfl rfl).1,
   (start_guard_rejects_only_active { st := initialState } goodConfig
      { isRunning := true } okEnv).2.2 rfl⟩

/-- C2 counterexample: at the spec's own scenario input — a configuration
with `sampling_ratio` 1.5 — `start()` itself does not fail with a
`ValidationError`: its body (lines 415–518) performs no configuration
validation, so the run succeeds, issues the `createStream` network call and
acquires the media handle. (In the code the `ValidationError` for this config
is thrown earlier, by the constructor, so such an instance never exists.) -/
theorem start_performs_no_validation :
    (runStart badRatioConfig initialState okEnv).1 = .ok () ∧
    (runStart badRatioConfig initialState okEnv).2.2 =
      [NetEffect.createStream "Read text"] ∧
    (runStart badRatioConfig initialState okEnv).2.1.mediaStream = some 0 :=
  ⟨rfl, rfl, rfl⟩

/-- C2 (amended): for every configuration whose required strings and source
descriptor pass and which has a numeric processing field outside its declared
interval, constructing the manager (which runs `validateConfig` before
anything else) fails with a `ValidationError` naming a violated field — hence
no instance exists, `start()` is never reachable with such a configuration,
no network call is made and no media handle is acquired. -/
theorem construction_rejects_invalid_numeric (c : RealtimeVisionConfig)
    (hu : ¬c.apiUrl = "") (hk : ¬c.apiKey = "") (hp : ¬c.prompt = "")
    (hs : validateSource c.source = .ok ())
    (hv : violatedMsgs (c.processing.getD {}) ≠ []) :
    ∃ m, mk c = .error (.validationError m) ∧
      m ∈ violatedMsgs (c.processing.getD {}) := by
  cases hl : violatedMsgs (c.processing.getD {}) with
  | nil => exact absurd hl hv
  | cons a l =>
    refine ⟨a, ?_, by simp [hl]⟩
    have hvc : validateConfig c = .error (.validationError a) := by
      unfold validateConfig
      rw [if_neg hu, if_neg hk, if_neg hp, hs]
      show validateProcessing (c.processing.getD {}) = _
      rw [validateProcessing_eq_head, hl]
      rfl
    simp [mk, hvc]

/-- C2 witness: constructing with the scenario configuration
(`sampling_ratio` 1.5) fails with exactly the message the spec names. -/
theorem construction_rejects_invalid_numeric_witness :
    mk badRatioConfig =
      .error (.validationError "sampling_ratio must be between 0 and 1") := by
  have hx : violatedMsgs (badRatioConfig.processing.getD {}) =
      ["sampling_ratio must be between 0 and 1"] := by
    norm_num [violatedMsgs, violatedField, badRatioConfig, JsNum.jlt, JsNum.jgt,
      CONSTRAINTS_SAMPLING_RATIO_min, CONSTRAINTS_SAMPLING_RATIO_max,
      CONSTRAINTS_FPS_min, CONSTRAINTS_FPS_max,
      CONSTRAINTS_CLIP_LENGTH_SECONDS_min, CONSTRAINTS_CLIP_LENGTH_SECONDS_max,
      CONSTRAINTS_DELAY_SECONDS_min, CONSTRAINTS_DELAY_SECONDS_max]
  obtain ⟨m, hm, hmem⟩ := construction_rejects_invalid_numeric badRatioConfig
    (by decide) (by decide) (by decide) rfl (by rw [hx]; simp)
  rw [hx] at hmem
  simp only [List.mem_singleton] at hmem
  rw [hmem] at hm
  exact hm

/-- C4 counterexample: after a successful `start()` (the session id "sid-1"
is known) the caller's own `stop()` runs `cleanup`, which nulls `streamId`
(line 735); an immediately following `submitFeedback` therefore fails with
"No active stream" instead of issuing the feedback call. -/
theorem feedback_after_stop_fails :
    (runStart goodConfig initialState okEnv).2.1.streamId = some "sid-1" ∧
    submitFeedback (stop (runStart goodConfig initialState okEnv).2.1).1
      (.num 5) "accuracy" none =
      .error (.genericError "No active stream") :=
  ⟨rfl, rfl⟩

/-- C4 (amended): `submitFeedback` issues the feedback call exactly when a
session id is currently known and the feedback passes validation; whenever
`streamId` is null it fails with "No active stream" — which holds both when
no session was ever created and after any cleanup, the caller's own `stop()`
included, since `stop` always nulls the stream id. -/
theorem feedback_requires_live_session (s : ManagerState) (rating : JsNum)
    (category : String) (fb : Option String) (sid : String) :
    (s.streamId = none →
      submitFeedback s rating category fb =
        .error (.genericError "No active stream")) ∧
    (stop s).1.streamId = none ∧
    (s.streamId = some sid →
      rating.jlt (.num CONSTRAINTS_RATING_min) = false →
      rating.jgt (.num CONSTRAINTS_RATING_max) = false →
      ¬category = "" →
      submitFeedback s rating category fb =
        .ok (.feedbackPost sid rating category (fb.getD ""))) := by
  refine ⟨?_, ?_, ?_⟩
  · intro h
    simp [submitFeedback, h]
  · simp [stop, cleanup_fst]
  · intro h h1 h2 h3
    simp [submitFeedback, h, h1, h2, h3]

/-- C4 witness: the three branches at concrete inputs — the fresh instance,
a stopped session, and a live session with valid feedback. -/
theorem feedback_requires_live_session_witness :
    submitFeedback initialState (.num 5) "accuracy" none =
      .error (.genericError "No active stream") ∧
    (stop wsDemoState).1.streamId = none ∧
    submitFeedback wsDemoState (.num 5) "accuracy" none =
      .ok (.feedbackPost "sid-1" (.num 5) "accuracy" "") :=
  ⟨(feedback_requires_live_session initialState (.num 5) "accuracy" none
      "sid-1").1 rfl,
   (feedback_requires_live_session wsDemoState (.num 5) "accuracy" none
      "sid-1").2.1,
   (feedback_requires_live_session wsDemoState (.num 5) "accuracy" none
      "sid-1").2.2 rfl (by decide) (by decide) (by decide)⟩

/-- C9: `pushFrame` called before `start()` always fails with the state error
"Stream is not running"; called on a running session whose source is not the
push-stream variant it always fails with the variant-mismatch error and never
silently no-ops. (Spec-modelled: the push-stream implementation is not under
`src/`; the model follows §4.2 of the spec and the test suite's messages.) -/
theorem pushFrame_guards (src : StreamSource) (h : isPngStream src = false) :
    (∀ src' : StreamSource,
      pushFrame src' false = .error (.genericError "Stream is not running")) ∧
    pushFrame src true =
      .error (.genericError
        "pushFrame() can only be used with png-stream source type") ∧
    pushFrame src true ≠ .ok () := by
  refine ⟨fun src' => rfl, ?_, ?_⟩ <;> simp [pushFrame, h]

/-- C9 witness: `pushFrame` before `start()` and on a running camera-source
session. -/
theorem pushFrame_guards_witness :
    pushFrame (.camera "user") false =
      .error (.genericError "Stream is not running") ∧
    pushFrame (.camera "user") true =
      .error (.genericError
        "pushFrame() can only be used with png-stream source type") :=
  ⟨(pushFrame_guards (.camera "user") rfl).1 (.camera "user"),
   (pushFrame_guards (.camera "user") rfl).2.1⟩

/-- C10: a configuration in which any numeric processing field is `NaN`
passes validation, because each range check uses the strict JavaScript
comparisons `<` and `>`, both false for `NaN` — so replacing any numeric
processing field of an accepted configuration by `NaN` keeps it accepted. -/
theorem nan_passes_validation (c : RealtimeVisionConfig) (f : NumField)
    (h : validateConfig c = .ok ()) :
    validateConfig (setProcNaN c f) = .ok () := by
  rw [validateConfig_ok_iff] at h ⊢
  obtain ⟨hu, hk, hp, hs, hnil⟩ := h
  rw [violatedMsgs_nil_iff] at hnil
  obtain ⟨q1, q2, q3, q4⟩ := hnil
  refine ⟨hu, hk, hp, hs, ?_⟩
  rw [violatedMsgs_nil_iff]
  cases f <;>
    exact ⟨by simpa [setProcNaN, violatedField, JsNum.jlt, JsNum.jgt] using q1,
           by simpa [setProcNaN, violatedField, JsNum.jlt, JsNum.jgt] using q2,
           by simpa [setProcNaN, violatedField, JsNum.jlt, JsNum.jgt] using q3,
           by simpa [setProcNaN, violatedField, JsNum.jlt, JsNum.jgt] using q4⟩

/-- C10 witness: the accepted configuration `goodConfig` stays accepted after
its `sampling_ratio` is replaced by `NaN`. -/
theorem nan_passes_validation_witness :
    validateConfig goodConfig = .ok () ∧
    validateConfig (setProcNaN goodConfig .samplingRatio) = .ok () :=
  ⟨rfl, nan_passes_validation goodConfig .samplingRatio rfl⟩

end RealtimeVision
